import Mathlib

/-!
Verification development for the `sr` privilege-delegation launcher
(src/sr.c of RootAsRole). The C source is shallowly embedded: each
external collaborator call is given an oracle describing its outcome,
and the control flow of `main`, `sr_execve` and the command-resolution
segment is translated line by line into executable Lean functions that
also record the sequence of external calls performed.
-/

namespace SR

/-- PATH_MAX from linux/limits.h, used by `strnlen(argv[0], PATH_MAX)`. -/
def PATH_MAX : Nat := 4096

/-- The parsed command line, struct _arguments_t (src/sr.c lines 21-26):
`role` is the -r argument when given, and `info`, `version`, `help` the flags. -/
structure Arguments where
  role : Option String
  info : Bool
  version : Bool
  help : Bool
deriving DecidableEq

/-- The errno values the code distinguishes, plus representatives of the rest. -/
inductive Errno where
  | enoexec
  | enametoolong
  | eaccess
  | enoent
  | otherErr
deriving DecidableEq

/-- External calls observable during a run of `main` / `sr_execve`. -/
inductive Ev where
  | get_username
  | pam_authenticate_user
  | get_group_names
  | print_rights
  | print_rights_role (role : String)
  | readArg (idx : Nat) (avail : Nat)
  | get_settings_from_config
  | setpcap_effective (arg : Bool)
  | cap_iab_set_proc
  | activates_securebits
  | filter_env_vars
  | secure_path
  | realpathCall
  | execveCall (path : String) (args : List (Option String))
deriving DecidableEq

/-- The C argument vector handed to a program: the argument strings followed by
the terminating null pointer (C guarantees `argv[argc] == NULL`). `none` models
a null `char *`. -/
def cArgv (argv : List String) : List (Option String) :=
  argv.map some ++ [none]

/-- Number of pointer slots allocated for the replacement vector in the
shell-interpreter fallback: `reallocarray(NULL, p_argc + 1, sizeof(char *))`
(src/sr.c line 94). -/
def nargvAllocSlots (p_argc : Nat) : Nat := p_argc + 1

/-- The pointer-slot indices written into `nargv` by src/sr.c lines 96-98:
`nargv[0] = "sh"; nargv[1] = command;
memcpy(nargv + 2, p_argv, p_argc * sizeof(char *))` writes slots 0, 1 and
2 .. p_argc + 1. -/
def nargvWrittenIndices (p_argc : Nat) : List Nat :=
  0 :: 1 :: (List.range p_argc).map (· + 2)

/-- The pointer values written into `nargv`, in slot order (src/sr.c lines
96-98): the literal "sh", the command, then the first `p_argc` pointers of the
original vector `p_argv` (the `memcpy` copies `p_argc * sizeof(char *)` bytes). -/
def nargvEntries (command : String) (p_argc : Nat) (p_argv : List (Option String)) :
    List (Option String) :=
  some "sh" :: some command :: p_argv.take p_argc

/-- Outcome of the external `execve` calls performed by `sr_execve`:
`execveErrno = none` means the first `execve` succeeded (and never returned);
`some e` means it returned -1 with errno set to `e`. `allocOk` is whether
`reallocarray` succeeded, `shellOk` whether the `execve("/bin/sh", ...)`
succeeded. -/
structure ExecOracle where
  execveErrno : Option Errno
  allocOk : Bool
  shellOk : Bool
deriving DecidableEq

/-- Result of `sr_execve` as seen by its caller: either the process image was
replaced by the named program, or control returned to `main`. -/
inductive ExecOutcome where
  | replaced (path : String)
  | returned
deriving DecidableEq

/-- Shallow embedding of `sr_execve` (src/sr.c lines 89-103).
`int i = execve(command, p_argv, p_envp);` only returns on failure with
`i == -1`, so inside the failure branch the guard
`if(i == -1 || errno == ENOEXEC)` is evaluated with `i = -1`.
When the guard holds and allocation succeeds, the replacement vector
(`nargvEntries`) is passed to `execve("/bin/sh", ...)`. -/
def sr_execve (command : String) (p_argc : Nat) (argv : List String)
    (o : ExecOracle) : List Ev × ExecOutcome :=
  let firstCall := Ev.execveCall command (cArgv argv)
  match o.execveErrno with
  | none => ([firstCall], .replaced command)
  | some e =>
      let i : Int := -1
      if i = -1 ∨ e = .enoexec then
        if o.allocOk then
          let shellCall := Ev.execveCall "/bin/sh" (nargvEntries command p_argc (cArgv argv))
          if o.shellOk then ([firstCall, shellCall], .replaced "/bin/sh")
          else ([firstCall, shellCall], .returned)
        else ([firstCall], .returned)
      else ([firstCall], .returned)

/-- Failure injection for the four privilege primitives of the capability
transition (src/sr.c lines 155-168): `setpcap_effective(1)`,
`cap_iab_set_proc(iab)`, `setpcap_effective(0)`, `activates_securebits()`.
A `true` field means that call returns nonzero (failure). -/
structure CapOracle where
  setpcapOnFails : Bool
  iabFails : Bool
  setpcapOffFails : Bool
  securebitsFails : Bool
deriving DecidableEq

/-- Result of the capability-transition segment: the calls performed, the
`error(1, 0, msg)` exit if one was taken (`none` means control continued to
the next statement of `main`), and whether the meta-privilege (CAP_SETPCAP)
is in the effective set afterward. A primitive that fails leaves the
effective set unchanged. -/
structure CapResult where
  trace : List Ev
  exited : Option (Nat × String)
  metaAfter : Bool
deriving DecidableEq

/-- Shallow embedding of the capability transition (src/sr.c lines 155-168):
`setpcap_effective(1)` raises the meta-privilege in the effective set,
`cap_iab_set_proc` installs the triple, `setpcap_effective(0)` lowers the
meta-privilege, and `activates_securebits()` runs only under
`options->no_root`. Each failing call is followed immediately by
`error(1, 0, ...)`, which exits the process. `meta0` is whether the
meta-privilege is effective on entry. -/
def capTransition (o : CapOracle) (noRoot : Bool) (meta0 : Bool) : CapResult :=
  if o.setpcapOnFails then
    ⟨[.setpcap_effective true], some (1, "Unable to setpcap capability"), meta0⟩
  else
    let meta1 := true
    if o.iabFails then
      ⟨[.setpcap_effective true, .cap_iab_set_proc],
        some (1, "Unable to set capabilities"), meta1⟩
    else if o.setpcapOffFails then
      ⟨[.setpcap_effective true, .cap_iab_set_proc, .setpcap_effective false],
        some (1, "Unable to setpcap capability"), meta1⟩
    else
      let meta2 := false
      if noRoot then
        if o.securebitsFails then
          ⟨[.setpcap_effective true, .cap_iab_set_proc, .setpcap_effective false,
              .activates_securebits],
            some (1, "Unable to activate securebits"), meta2⟩
        else
          ⟨[.setpcap_effective true, .cap_iab_set_proc, .setpcap_effective false,
              .activates_securebits], none, meta2⟩
      else
        ⟨[.setpcap_effective true, .cap_iab_set_proc, .setpcap_effective false],
          none, meta2⟩

/-- The full ordered protocol of src/sr.c lines 155-168 when every step
succeeds: acquire, install, release, then (only under no_root) lockdown. -/
def capOrder (noRoot : Bool) : List Ev :=
  [.setpcap_effective true, .cap_iab_set_proc, .setpcap_effective false] ++
    (if noRoot then [.activates_securebits] else [])

/-- Outcome of `realpath(argv[0], NULL)` (src/sr.c line 179): a canonical
path, a failure with errno = ENAMETOOLONG, or a failure with another errno. -/
inductive RealpathRes where
  | ok (canonical : String)
  | failTooLong
  | failOther
deriving DecidableEq

/-- Whether `errno == ENAMETOOLONG` holds just after the `realpath` call
(src/sr.c line 180). A successful `realpath` does not modify errno, so in
that case the test sees whatever stale value was left by earlier calls;
`staleTooLong` says whether that stale value was ENAMETOOLONG. -/
def errnoIsTooLongAfterRealpath (r : RealpathRes) (staleTooLong : Bool) : Bool :=
  match r with
  | .ok _ => staleTooLong
  | .failTooLong => true
  | .failOther => false

/-- Result of the command-resolution segment (src/sr.c lines 179-190):
either a path handed on to `sr_execve`, or an `error(1, 0, msg)` exit. -/
inductive ResolveOut where
  | resolved (path : String)
  | fatalMsg (code : Nat) (msg : String)
deriving DecidableEq

/-- Shallow embedding of src/sr.c lines 179-190:
`command = realpath(argv[0], NULL); if(errno == ENAMETOOLONG) error(1,0,"Path too long");
if(access(command, X_OK) != 0) { command = find_absolute_path_from_env(argv[0]);
if(command == NULL) error(1,0,"%s : Command not found", argv[0]); }
else { error(1,0,"%s : Command not found", argv[0]); }`.
`canonExec` is whether `access(canonical, X_OK) == 0`; when `realpath`
failed, `command` is NULL and the access check fails. `pathSearch` is the
result of `find_absolute_path_from_env(argv[0])`. -/
def resolveCommand (requested : String) (rp : RealpathRes) (staleTooLong : Bool)
    (canonExec : Bool) (pathSearch : Option String) : ResolveOut :=
  if errnoIsTooLongAfterRealpath rp staleTooLong then
    .fatalMsg 1 "Path too long"
  else
    let canonIsExec := match rp with
      | .ok _ => canonExec
      | _ => false
    if !canonIsExec then
      match pathSearch with
      | some found => .resolved found
      | none => .fatalMsg 1 (requested ++ " : Command not found")
    else
      .fatalMsg 1 (requested ++ " : Command not found")

/-- Modelled from the spec: a role/task of the policy store (spec §4.1 and
glossary) — "a named policy entry binding an identity or group to a
capability triple and execution options for a specific command".
`principals` are the usernames and group names granted access, `cmd` the
command the rule matches, `caps` the granted capability identifiers.
The store itself (xml_manager's `get_settings_from_config`) is not in src/. -/
structure Role where
  name : String
  principals : List String
  cmd : String
  caps : List Nat
deriving DecidableEq

/-- Modelled from the spec: a role grants access when the identity matches
directly or via any group, restricted to the rule matching the command
(spec §4.1). -/
def roleMatches (r : Role) (user : String) (groups : List String) (cmd : String) : Bool :=
  (r.principals.contains user || groups.any (fun g => r.principals.contains g)) &&
    r.cmd == cmd

/-- Modelled from the spec: `resolve(identity, groups, command, role_hint?) ->
Decision` (spec §4.1). Candidates are all configured roles granting access to
the identity or its groups for the command; "If role_hint is supplied, the
candidate set is restricted to that named role only"; first-defined-wins
within a tier. Returns the granted capability set or `none` for Denied. -/
def resolvePolicy (roles : List Role) (user : String) (groups : List String)
    (cmd : String) (hint : Option String) : Option (List Nat) :=
  let candidates := roles.filter fun r =>
    (match hint with
      | some h => r.name == h
      | none => true) && roleMatches r user groups cmd
  candidates.head?.map (fun r => r.caps)

/-- The policy lookup as `main` actually performs it (src/sr.c line 151):
`get_settings_from_config(user, nb_groups, groups, command, &iab, &options)`.
The parsed role hint `arguments.role` is in scope at the call but is not
among the arguments, so the store resolves with no role restriction. -/
def mainPolicyCall (roles : List Role) (user : String) (groups : List String)
    (cmd : String) (hintParsed : Option String) : Option (List Nat) :=
  let _ := hintParsed
  resolvePolicy roles user groups cmd none

/-- Oracle for one run of `main` (src/sr.c lines 109-199): the parsed
arguments and remaining argument vector, and the outcome of each external
call. `argvRest` is `argv` after `parse_arguments` advanced it by `optind`
(the remaining real arguments, without the terminating null slot).
`groupsOk` is whether `get_group_names` returned 0; `settingsOk` whether
`get_settings_from_config` returned nonzero; `filterFails` whether
`filter_env_vars` returned a positive value; `securePathOk` whether
`secure_path` returned nonzero; `canonExec` whether
`access(canonical, X_OK) == 0`; `pathSearch` the result of
`find_absolute_path_from_env`. -/
structure Oracle where
  parseOk : Bool
  args : Arguments
  argvRest : List String
  usernameOk : Bool
  authOk : Bool
  groupsOk : Bool
  settingsOk : Bool
  noRoot : Bool
  cap : CapOracle
  filterFails : Bool
  securePathOk : Bool
  realpathRes : RealpathRes
  errnoStale : Bool
  canonExec : Bool
  pathSearch : Option String
  execO : ExecOracle
deriving DecidableEq

/-- How a run of `main` ends: `ret code` models reaching a `return code`
statement of `main`; `fatal code msg` models `error(code, 0, msg)`, which
prints one diagnostic line and exits with that status; `replacedBy path`
models a successful `execve`; `oobRead idx avail` models the process
reading slot `idx` of the remaining argument vector although only `avail`
arguments remain — an access past the end of the argument list, whose
behavior the C source does not define. -/
inductive Outcome where
  | ret (code : Nat)
  | fatal (code : Nat) (msg : String)
  | replacedBy (path : String)
  | oobRead (idx : Nat) (avail : Nat)
deriving DecidableEq

/-- Shallow embedding of `main` (src/sr.c lines 109-199), returning the
sequence of external calls performed and the outcome. Follows the source
statement by statement: usage/help and version return 0; then
`get_username`, `pam_authenticate_user`, `get_group_names`, each failure
exiting via `error(1, 0, ...)`; then either the info branch (print rights,
fall through to `return 0`) or the execution branch: read `argv[0]`
(`strnlen(argv[0], PATH_MAX)`), check its length, resolve the policy,
run the capability transition, filter the environment, secure the path,
resolve the command (lines 179-190) and call `sr_execve`; if `sr_execve`
returns, `main` frees its buffers and returns 0. -/
def mainRun (o : Oracle) : List Ev × Outcome :=
  if !o.parseOk || o.args.help then
    ([], .ret 0)
  else if o.args.version then
    ([], .ret 0)
  else if !o.usernameOk then
    ([.get_username], .fatal 1 "Unable to retrieve the username of the executor")
  else if !o.authOk then
    ([.get_username, .pam_authenticate_user], .fatal 1 "Authentication failed")
  else if !o.groupsOk then
    ([.get_username, .pam_authenticate_user, .get_group_names],
      .fatal 1 "Unable to retrieve the groups of the executor")
  else
    let pre := [Ev.get_username, Ev.pam_authenticate_user, Ev.get_group_names]
    if o.args.info then
      match o.args.role with
      | none => (pre ++ [.print_rights], .ret 0)
      | some r => (pre ++ [.print_rights_role r], .ret 0)
    else
      match o.argvRest with
      | [] => (pre ++ [.readArg 0 0], .oobRead 0 0)
      | cmd :: rest =>
        let pre := pre ++ [Ev.readArg 0 (cmd :: rest).length]
        if cmd.length < PATH_MAX then
          if !o.settingsOk then
            (pre ++ [.get_settings_from_config], .fatal 1 "Permission denied")
          else
            let pre := pre ++ [Ev.get_settings_from_config]
            let capRes := capTransition o.cap o.noRoot false
            match capRes.exited with
            | some ex => (pre ++ capRes.trace, .fatal ex.1 ex.2)
            | none =>
              let pre := pre ++ capRes.trace
              if o.filterFails then
                (pre ++ [.filter_env_vars], .fatal 1 "Unable to filter environment variables")
              else
                let pre := pre ++ [Ev.filter_env_vars]
                if !o.securePathOk then
                  (pre ++ [.secure_path], .fatal 1 "Unable to secure path")
                else
                  let pre := pre ++ [Ev.secure_path, Ev.realpathCall]
                  match resolveCommand cmd o.realpathRes o.errnoStale o.canonExec
                      o.pathSearch with
                  | .fatalMsg c m => (pre, .fatal c m)
                  | .resolved found =>
                    let er := sr_execve found (cmd :: rest).length (cmd :: rest) o.execO
                    match er.2 with
                    | .replaced p => (pre ++ er.1, .replacedBy p)
                    | .returned => (pre ++ er.1, .ret 0)
        else
          (pre, .fatal 1 "Command too long")

/-- A reference role granting a wide capability set. -/
def roleBroad : Role := ⟨"broad", ["alice"], "/usr/sbin/shutdown", [1, 2]⟩

/-- A reference role granting a strictly smaller capability set. -/
def roleNarrow : Role := ⟨"narrow", ["alice"], "/usr/sbin/shutdown", [1]⟩

/-- Capability primitives among the observable external calls. -/
def isCapPrimitive : Ev → Bool
  | .setpcap_effective _ => true
  | .cap_iab_set_proc => true
  | .activates_securebits => true
  | _ => false

/-- A run in which every step succeeds until the final exec: the requested
command is found via the PATH search, the exec fails with EACCES and the
shell fallback exec also fails. -/
def oExecFail : Oracle :=
  ⟨true, ⟨none, false, false, false⟩, ["ls"], true, true, true, true,
    false, ⟨false, false, false, false⟩, false, true, .failOther, false, false,
    some "/bin/ls", ⟨some .eaccess, true, false⟩⟩

/-- A run in which authentication fails. -/
def oAuthFail : Oracle :=
  ⟨true, ⟨none, false, false, false⟩, ["ls"], true, false, true, true,
    false, ⟨false, false, false, false⟩, false, true, .failOther, false, false,
    none, ⟨none, true, true⟩⟩

/-- A run with no help/version/info flag and no command supplied. -/
def oNoCommand : Oracle :=
  ⟨true, ⟨none, false, false, false⟩, [], true, true, true, true,
    false, ⟨false, false, false, false⟩, false, true, .failOther, false, false,
    none, ⟨none, true, true⟩⟩

/-- C1: evaluating the command-resolution code (src/sr.c lines 179-190) on a
request whose canonicalization succeeds and whose canonical path passes the
executability check: the code takes the else branch of the access test and
exits fatally with "Command not found" instead of accepting the canonical
path as the resolution. -/
theorem C1_canonical_executable_rejected :
    resolveCommand "/bin/ls" (.ok "/bin/ls") false true none =
      .fatalMsg 1 "/bin/ls : Command not found" ∧
    resolveCommand "/bin/ls" (.ok "/bin/ls") false true (some "/other/ls") =
      .fatalMsg 1 "/bin/ls : Command not found" := by
  exact ⟨rfl, rfl⟩

/-- C2: evaluating the capability transition with failure injected at the
triple-installation step: the process exits via error(1, ...) while the
meta-privilege is still present in the effective set, because the code
exits without ever reaching the releasing setpcap_effective(0) call. -/
theorem C2_install_failure_meta_left_active :
    (capTransition ⟨false, true, false, false⟩ false false).exited =
      some (1, "Unable to set capabilities") ∧
    (capTransition ⟨false, true, false, false⟩ false false).metaAfter = true ∧
    Ev.setpcap_effective false ∉
      (capTransition ⟨false, true, false, false⟩ false false).trace := by
  refine ⟨rfl, rfl, by decide⟩

/-- C3: evaluating main on a run where every step succeeds until the final
exec, the exec fails with EACCES and the shell fallback exec also fails:
main falls through sr_execve and returns status 0, with no fatal diagnostic,
instead of terminating with status 1. -/
theorem C3_exec_failure_returns_zero :
    (mainRun oExecFail).2 = Outcome.ret 0 ∧
    Ev.execveCall "/bin/ls" (cArgv ["ls"]) ∈ (mainRun oExecFail).1 ∧
    Ev.execveCall "/bin/sh" (nargvEntries "/bin/ls" 1 (cArgv ["ls"])) ∈
      (mainRun oExecFail).1 := by
  refine ⟨rfl, by decide, by decide⟩

/-- C4: evaluating sr_execve at a launch failure whose errno is EACCES, which
is not ENOEXEC: the shell-interpreter fallback is still triggered, because
the guard `i == -1 || errno == ENOEXEC` holds for every returning execve. -/
theorem C4_fallback_on_non_enoexec_failure :
    Errno.eaccess ≠ Errno.enoexec ∧
    (sr_execve "/bin/prog" 1 ["/bin/prog"] ⟨some .eaccess, true, false⟩).1 =
      [Ev.execveCall "/bin/prog" (cArgv ["/bin/prog"]),
        Ev.execveCall "/bin/sh" (nargvEntries "/bin/prog" 1 (cArgv ["/bin/prog"]))] := by
  exact ⟨by decide, rfl⟩

/-- C5: evaluating the policy lookup as main performs it — the role hint is
parsed but not passed to get_settings_from_config — against the
spec-modelled resolver: with the hint "narrow" supplied, the run is granted
the broad role's capability set [1, 2], which is strictly wider than the
set [1] the hinted role alone grants. -/
theorem C5_role_hint_dropped :
    mainPolicyCall [roleBroad, roleNarrow] "alice" ["ops"] "/usr/sbin/shutdown"
      (some "narrow") = some [1, 2] ∧
    resolvePolicy [roleBroad, roleNarrow] "alice" ["ops"] "/usr/sbin/shutdown"
      (some "narrow") = some [1] ∧
    (2 : Nat) ∈ [1, 2] ∧ (2 : Nat) ∉ ([1] : List Nat) := by
  refine ⟨rfl, rfl, by decide, by decide⟩

/-- C6: the capability transition follows the strict ordered protocol: its
call trace is always a prefix of acquire–install–release(–lockdown); when no
step fails the full ordered sequence runs, with lockdown appearing only
under no_root; each injected failure exits with status 1 immediately after
the failing call, with no later call executed; and no call is retried. -/
theorem C6_capability_protocol_order (o : CapOracle) (nr m0 : Bool) :
    ((capTransition o nr m0).trace.isPrefixOf (capOrder nr) = true) ∧
    ((capTransition o nr m0).exited = none →
      (capTransition o nr m0).trace = capOrder nr) ∧
    ((capTransition o nr m0).exited ≠ none →
      (capTransition o nr m0).exited.map Prod.fst = some 1) ∧
    (o.setpcapOnFails = true →
      (capTransition o nr m0).trace = [.setpcap_effective true] ∧
      (capTransition o nr m0).exited ≠ none) ∧
    (o.setpcapOnFails = false → o.iabFails = true →
      (capTransition o nr m0).trace = [.setpcap_effective true, .cap_iab_set_proc] ∧
      (capTransition o nr m0).exited ≠ none) ∧
    (o.setpcapOnFails = false → o.iabFails = false → o.setpcapOffFails = true →
      (capTransition o nr m0).trace =
        [.setpcap_effective true, .cap_iab_set_proc, .setpcap_effective false] ∧
      (capTransition o nr m0).exited ≠ none) ∧
    (nr = true → o.setpcapOnFails = false → o.iabFails = false →
      o.setpcapOffFails = false → o.securebitsFails = true →
      (capTransition o nr m0).trace = capOrder true ∧
      (capTransition o nr m0).exited ≠ none) ∧
    (Ev.activates_securebits ∈ (capTransition o nr m0).trace → nr = true) ∧
    (capTransition o nr m0).trace.Nodup := by
  obtain ⟨f1, f2, f3, f4⟩ := o
  cases f1 <;> cases f2 <;> cases f3 <;> cases f4 <;> cases nr <;> cases m0 <;>
    exact ⟨by decide, by decide, by decide, by decide, by decide, by decide, by decide,
      by decide, by decide⟩

/-- Witness for C6 at a concrete input: failure injected at the release step
stops the trace right there with a fatal exit. -/
theorem C6_capability_protocol_order_witness :
    (capTransition ⟨false, false, true, false⟩ true false).trace =
      [.setpcap_effective true, .cap_iab_set_proc, .setpcap_effective false] ∧
    (capTransition ⟨false, false, true, false⟩ true false).exited ≠ none :=
  (C6_capability_protocol_order ⟨false, false, true, false⟩ true false).2.2.2.2.2.1
    rfl rfl rfl

/-- C7: on every run where the command line parses, neither help nor version
is selected, the username lookup succeeds and authentication fails, main
exits with status 1 and the diagnostic "Authentication failed", and its
call trace contains no capability primitive at all. -/
theorem C7_auth_failure_no_capability_calls (o : Oracle)
    (hp : o.parseOk = true) (hh : o.args.help = false) (hv : o.args.version = false)
    (hu : o.usernameOk = true) (ha : o.authOk = false) :
    (mainRun o).2 = .fatal 1 "Authentication failed" ∧
    (mainRun o).1.all (fun e => !isCapPrimitive e) = true := by
  simp [mainRun, hp, hh, hv, hu, ha, isCapPrimitive]

/-- Witness for C7 at a concrete oracle with failing authentication. -/
theorem C7_auth_failure_no_capability_calls_witness :
    (mainRun oAuthFail).2 = .fatal 1 "Authentication failed" ∧
    (mainRun oAuthFail).1.all (fun e => !isCapPrimitive e) = true :=
  C7_auth_failure_no_capability_calls oAuthFail rfl rfl rfl rfl rfl

/-- C8: evaluating the resolution code on a run where canonicalization
succeeds — so it did not exceed the path limit on this invocation — but
errno was left as ENAMETOOLONG by an earlier call: the code still takes the
"Path too long" fatal exit; with a clean errno the same input does not.
This refutes the claimed "if and only if". -/
theorem C8_stale_errno_path_too_long :
    resolveCommand "/bin/ls" (.ok "/bin/ls") true true none =
      .fatalMsg 1 "Path too long" ∧
    resolveCommand "/bin/ls" (.ok "/bin/ls") false true (some "/x") ≠
      .fatalMsg 1 "Path too long" := by
  exact ⟨rfl, by decide⟩

/-- C9: in the shell-interpreter fallback, for every argument count the
replacement vector has argc + 1 allocated slots but argc + 2 slots written;
the highest written index argc + 1 lies outside the allocation; the memcpy
copies exactly the argc argument pointers and not the original vector's
terminating null, so the vector handed to the shell exec contains no null
terminator. -/
theorem C9_fallback_argv_overflow (command : String) (p_argc : Nat)
    (argv : List String) (h : argv.length = p_argc) :
    (nargvWrittenIndices p_argc).length = p_argc + 2 ∧
    (p_argc + 1) ∈ nargvWrittenIndices p_argc ∧
    nargvAllocSlots p_argc ≤ p_argc + 1 ∧
    (cArgv argv).take p_argc = argv.map some ∧
    (nargvEntries command p_argc (cArgv argv)).length = p_argc + 2 ∧
    none ∉ nargvEntries command p_argc (cArgv argv) := by
  subst h
  have htake : (cArgv argv).take argv.length = argv.map some := by
    have hl : (argv.map some).length = argv.length := by simp
    rw [cArgv, ← hl, List.take_left]
  refine ⟨by simp [nargvWrittenIndices], ?_, by simp [nargvAllocSlots], htake,
    by simp [nargvEntries, htake], by simp [nargvEntries, htake]⟩
  rcases argv with _ | ⟨a, rest⟩
  · decide
  · simp only [nargvWrittenIndices, List.mem_cons, List.mem_map, List.mem_range]
    right; right
    exact ⟨rest.length, by simp, by simp only [List.length_cons]⟩

/-- Witness for C9 at a concrete command and two-element argument vector. -/
theorem C9_fallback_argv_overflow_witness :
    (nargvWrittenIndices 2).length = 2 + 2 ∧
    (2 + 1) ∈ nargvWrittenIndices 2 ∧
    nargvAllocSlots 2 ≤ 2 + 1 ∧
    (cArgv ["a", "b"]).take 2 = ["a", "b"].map some ∧
    (nargvEntries "/bin/t" 2 (cArgv ["a", "b"])).length = 2 + 2 ∧
    none ∉ nargvEntries "/bin/t" 2 (cArgv ["a", "b"]) :=
  C9_fallback_argv_overflow "/bin/t" 2 ["a", "b"] rfl

/-- C10: on every run where parsing succeeded and neither help, version nor
info is selected and the identity steps succeed, main reads slot 0 of the
remaining argument vector to measure the command name; when no command was
supplied the remaining vector is empty, so the read is past its end — index
0 with 0 arguments available, the slot holding the argv null terminator. -/
theorem C10_missing_command_read_past_end (o : Oracle)
    (hp : o.parseOk = true) (hh : o.args.help = false) (hv : o.args.version = false)
    (hi : o.args.info = false) (hu : o.usernameOk = true) (ha : o.authOk = true)
    (hg : o.groupsOk = true) (hr : o.argvRest = []) :
    (mainRun o).2 = .oobRead 0 0 ∧
    Ev.readArg 0 0 ∈ (mainRun o).1 ∧ o.argvRest.length ≤ 0 := by
  simp [mainRun, hp, hh, hv, hi, hu, ha, hg, hr]

/-- Witness for C10 at a concrete oracle supplying no command. -/
theorem C10_missing_command_read_past_end_witness :
    (mainRun oNoCommand).2 = .oobRead 0 0 ∧
    Ev.readArg 0 0 ∈ (mainRun oNoCommand).1 ∧ oNoCommand.argvRest.length ≤ 0 :=
  C10_missing_command_read_past_end oNoCommand rfl rfl rfl rfl rfl rfl rfl rfl

end SR
